import Mathlib

/-!
Shallow embedding of `src/services/gemini.ts` (repository AlejandroBarretoG/Firebase_test_v2).

The file under verification is a diagnostic suite of seven asynchronous probes
(`runGeminiTests.connect`, `.generateText`, `.streamText`, `.countTokens`, `.vision`,
`.systemInstruction`, `.embedding`) around an external `GoogleGenAI` client.  We model:

* JavaScript exceptions as an explicit `Except JSError` result: a thrown value is modelled
  as an object carrying an optional `message` field (`none` models the JS value `undefined`,
  as for a thrown value that has no `message` property);
* the external client as a `ClientStub`: a bundle of response behaviours, one per remote
  method, each a function from the request actually sent to an outcome (return or throw);
  `ctorError` models a throwing `new GoogleGenAI(...)` constructor;
* `process.env` as a record holding the optional `API_KEY` string;
* each probe as a total function: the `...Try` definition is the `try`-block body, with
  exception propagation explicit, and the outer definition applies the probe's `catch`
  handler.  The outer type is still `Except JSError TestResult`, so "the probe never
  throws to its caller" is a provable statement, not a typing artifact;
* `console.warn` (used only by the embedding probe) as an explicit list of emitted
  `WarnEntry` log records.
-/

/-- A caught JavaScript exception value. `message = none` models a thrown value whose
`message` property is `undefined`. -/
structure JSError where
  message : Option String
deriving DecidableEq

/-- JS truthiness of a `string | undefined` value: `undefined` and `""` are falsy. -/
def strTruthy : Option String → Bool
  | none => false
  | some s => s != ""

/-- JS `a || fallback` for `a : string | undefined`: yields `a` when truthy, else `fallback`. -/
def jsOr (a : Option String) (fallback : String) : String :=
  match a with
  | some s => if s != "" then s else fallback
  | none => fallback

/-- JS string coercion of a `string | undefined` value, as performed by `+=` and by
template-literal interpolation: `undefined` prints as `"undefined"`. -/
def jsStr : Option String → String
  | some s => s
  | none => "undefined"

/-- Model of JS `String.prototype.toLowerCase` (character-wise lowering). -/
def strToLower (s : String) : String := String.mk (s.data.map Char.toLower)

/-- `startsWithL s p` : the character list `s` starts with the pattern `p`. -/
def startsWithL : List Char → List Char → Bool
  | _, [] => true
  | [], _ :: _ => false
  | a :: s, b :: p => a == b && startsWithL s p

/-- `containsL p s` : the pattern `p` occurs as a contiguous run inside `s`. -/
def containsL (pat : List Char) : List Char → Bool
  | [] => startsWithL [] pat
  | a :: s => startsWithL (a :: s) pat || containsL pat s

/-- Model of JS `s.includes(pat)` (substring test). -/
def strIncludes (s pat : String) : Bool := containsL pat.data s.data

/-- One part of a structured content payload (`{ text: ... }` or `{ inlineData: ... }`). -/
inductive ContentPart where
  | textPart (text : String)
  | inlineDataPart (mimeType : String) (data : String)
deriving DecidableEq

/-- The `contents` field of a generation request: a bare string or a parts object. -/
inductive Contents where
  | str (s : String)
  | parts (parts : List ContentPart)
deriving DecidableEq

/-- The `config` object of a generation request (only `systemInstruction` is used). -/
structure GenConfig where
  systemInstruction : String
deriving DecidableEq

/-- A request to `ai.models.generateContent` / `generateContentStream` / `countTokens`. -/
structure GenRequest where
  model : String
  contents : Contents
  config : Option GenConfig
deriving DecidableEq

/-- A response of `ai.models.generateContent`: its `.text` accessor yields
`string | undefined`. -/
structure GenResponse where
  text : Option String
deriving DecidableEq

/-- Behaviour of the stream returned by `generateContentStream`: it yields `chunks` in
order and then either completes (`thenError = none`) or raises `thenError` mid-iteration. -/
structure StreamResult where
  chunks : List GenResponse
  thenError : Option JSError

/-- A response of `ai.models.countTokens` (`totalTokens` may be absent). -/
structure CountTokensResponse where
  totalTokens : Option Nat
deriving DecidableEq

/-- The embedding container of an `embedContent` response (`values` may be absent). -/
structure EmbeddingObj where
  values : Option (List Int)
deriving DecidableEq

/-- A response of `ai.models.embedContent` (`embedding` may be absent). -/
structure EmbedResponse where
  embedding : Option EmbeddingObj
deriving DecidableEq

/-- A request to `ai.models.embedContent` (`contents` is a list of content objects). -/
structure EmbedRequest where
  model : String
  contents : List Contents
deriving DecidableEq

/-- A `console.warn` record emitted by the embedding probe: the label string and the raw
response logged with it. -/
structure WarnEntry where
  label : String
  response : EmbedResponse
deriving DecidableEq

/-- Stubbed behaviour of the external `GoogleGenAI` client: what each remote method does
as a function of the request it receives, plus an optional constructor failure. -/
structure ClientStub where
  ctorError : Option JSError
  generateContent : GenRequest → Except JSError GenResponse
  generateContentStream : GenRequest → Except JSError StreamResult
  countTokens : GenRequest → Except JSError CountTokensResponse
  embedContent : EmbedRequest → Except JSError EmbedResponse

/-- The ambient process environment: `process.env.API_KEY` is `string | undefined`. -/
structure ProcessEnv where
  API_KEY : Option String
deriving DecidableEq

/-- Probe-specific `data` payload of a `TestResult` (one shape per probe). -/
inductive ProbeData where
  | connectD (reply : Option String)
  | generateD (model : String) (prompt : String) (output : Option String)
  | streamD (model : String) (fullText : String) (chunkCount : Nat)
  | tokensD (model : String) (prompt : String) (totalTokens : Option Nat)
  | visionD (model : String) (output : Option String)
  | sysD (model : String) (instruction : String) (prompt : String) (output : String)
  | embedD (model : String) (vectorLength : Nat)
deriving DecidableEq

/-- The uniform probe outcome (`interface TestResult`). The `message` field is declared
`string` in TS but is populated from `error.message : any` on most failure paths, so at
runtime it can be `undefined`; we model it as `Option String` (`none` = `undefined`). -/
structure TestResult where
  success : Bool
  message : Option String
  data : Option ProbeData
deriving DecidableEq

/-- The `catch` boundary of one probe: a thrown body error is converted by the probe's
handler into a normally returned `TestResult`. -/
def probeCatch (body : Except JSError TestResult) (handler : JSError → TestResult) :
    Except JSError TestResult :=
  match body with
  | Except.ok r => Except.ok r
  | Except.error e => Except.ok (handler e)

/-- `getAIClient` (src/services/gemini.ts lines 12-18): reads `process.env.API_KEY`,
throws `"API Key no encontrada en process.env.API_KEY"` when it is falsy, otherwise
constructs the client (modelled by the stub, whose constructor may itself throw). -/
def getAIClient (env : ProcessEnv) (stub : ClientStub) : Except JSError ClientStub :=
  if strTruthy env.API_KEY then
    match stub.ctorError with
    | some e => Except.error e
    | none => Except.ok stub
  else
    Except.error { message := some "API Key no encontrada en process.env.API_KEY" }

/-- The default model identifier of the six generation probes. -/
def defaultModel : String := "gemini-2.5-flash"

/-- Success message of the connectivity probe (template literal over the model id). -/
def connectSuccessMsg (modelId : String) : String := s!"Conexión exitosa con {modelId}."

/-- Success message of the streaming probe (template literal over the chunk count). -/
def streamSuccessMsg (chunkCount : Nat) : String :=
  s!"Streaming completado en {chunkCount} fragmentos."

/-- Failure message of the vision probe (template literal over the model id and the
JS-coerced error message). -/
def visionErrorMsg (modelId msg : String) : String := s!"Error en visión ({modelId}): {msg}"

/-- The request sent by the connectivity probe. -/
def connectRequest (modelId : String) : GenRequest :=
  { model := modelId, contents := Contents.str "ping", config := none }

/-- `try`-body of `runGeminiTests.connect` (lines 25-42): a cheap `generateContent`
call; an empty reply (`response.text` falsy) throws `"Respuesta vacía del servidor."`. -/
def runGeminiTests.connectTry (modelId : String) (env : ProcessEnv) (stub : ClientStub) :
    Except JSError TestResult :=
  match getAIClient env stub with
  | Except.error e => Except.error e
  | Except.ok ai =>
    match ai.generateContent (connectRequest modelId) with
    | Except.error e => Except.error e
    | Except.ok response =>
      if strTruthy response.text then
        Except.ok { success := true, message := some (connectSuccessMsg modelId),
                    data := some (ProbeData.connectD response.text) }
      else
        Except.error { message := some "Respuesta vacía del servidor." }

/-- Probe 1, `runGeminiTests.connect`. Its `catch` returns
`{ success: false, message: error.message || "Error de conexión" }`. -/
def runGeminiTests.connect (modelId? : Option String) (env : ProcessEnv) (stub : ClientStub) :
    Except JSError TestResult :=
  probeCatch (runGeminiTests.connectTry (modelId?.getD defaultModel) env stub)
    (fun error => { success := false, message := some (jsOr error.message "Error de conexión"),
                    data := none })

/-- The fixed prompt of the text-generation probe. -/
def generateTextPrompt : String := "Responde con una sola palabra: \x27Funciona\x27"

/-- The request sent by the text-generation probe. -/
def generateTextRequest (modelId : String) : GenRequest :=
  { model := modelId, contents := Contents.str generateTextPrompt, config := none }

/-- `try`-body of `runGeminiTests.generateText` (lines 48-63): reports whatever text the
call produced, with no validation of the output. -/
def runGeminiTests.generateTextTry (modelId : String) (env : ProcessEnv) (stub : ClientStub) :
    Except JSError TestResult :=
  match getAIClient env stub with
  | Except.error e => Except.error e
  | Except.ok ai =>
    match ai.generateContent (generateTextRequest modelId) with
    | Except.error e => Except.error e
    | Except.ok response =>
      Except.ok { success := true, message := some "Generación de texto correcta.",
                  data := some (ProbeData.generateD modelId generateTextPrompt response.text) }

/-- Probe 2, `runGeminiTests.generateText`. Its `catch` returns
`{ success: false, message: error.message }` (no fallback). -/
def runGeminiTests.generateText (modelId? : Option String) (env : ProcessEnv)
    (stub : ClientStub) : Except JSError TestResult :=
  probeCatch (runGeminiTests.generateTextTry (modelId?.getD defaultModel) env stub)
    (fun error => { success := false, message := error.message, data := none })

/-- The fixed prompt of the streaming probe. -/
def streamPrompt : String := "Escribe los números del 1 al 5 separados por comas."

/-- The request sent by the streaming probe. -/
def streamRequest (modelId : String) : GenRequest :=
  { model := modelId, contents := Contents.str streamPrompt, config := none }

/-- The `for await` loop of the streaming probe: `fullText += chunk.text; chunkCount++`
over each yielded chunk, then either normal completion or the stream's mid-iteration
error. JS `+=` coerces an `undefined` chunk text to the string `"undefined"` (`jsStr`). -/
def streamLoop : List GenResponse → Option JSError → String → Nat →
    Except JSError (String × Nat)
  | [], none, fullText, chunkCount => Except.ok (fullText, chunkCount)
  | [], some e, _, _ => Except.error e
  | chunk :: rest, thenError, fullText, chunkCount =>
    streamLoop rest thenError (fullText ++ jsStr chunk.text) (chunkCount + 1)

/-- `try`-body of `runGeminiTests.streamText` (lines 69-95): drains the stream,
concatenating fragment texts in arrival order and counting fragments. -/
def runGeminiTests.streamTextTry (modelId : String) (env : ProcessEnv) (stub : ClientStub) :
    Except JSError TestResult :=
  match getAIClient env stub with
  | Except.error e => Except.error e
  | Except.ok ai =>
    match ai.generateContentStream (streamRequest modelId) with
    | Except.error e => Except.error e
    | Except.ok responseStream =>
      match streamLoop responseStream.chunks responseStream.thenError "" 0 with
      | Except.error e => Except.error e
      | Except.ok (fullText, chunkCount) =>
        Except.ok { success := true,
                    message := some (streamSuccessMsg chunkCount),
                    data := some (ProbeData.streamD modelId fullText chunkCount) }

/-- Probe 3, `runGeminiTests.streamText`. Its `catch` returns
`{ success: false, message: error.message }`. -/
def runGeminiTests.streamText (modelId? : Option String) (env : ProcessEnv)
    (stub : ClientStub) : Except JSError TestResult :=
  probeCatch (runGeminiTests.streamTextTry (modelId?.getD defaultModel) env stub)
    (fun error => { success := false, message := error.message, data := none })

/-- The fixed prompt of the token-count probe. -/
def countTokensPrompt : String := "Why is the sky blue?"

/-- The request sent by the token-count probe. -/
def countTokensRequest (modelId : String) : GenRequest :=
  { model := modelId, contents := Contents.str countTokensPrompt, config := none }

/-- `try`-body of `runGeminiTests.countTokens` (lines 101-119): reports the returned
`totalTokens` with no plausibility validation. -/
def runGeminiTests.countTokensTry (modelId : String) (env : ProcessEnv) (stub : ClientStub) :
    Except JSError TestResult :=
  match getAIClient env stub with
  | Except.error e => Except.error e
  | Except.ok ai =>
    match ai.countTokens (countTokensRequest modelId) with
    | Except.error e => Except.error e
    | Except.ok response =>
      Except.ok { success := true, message := some "Conteo de tokens exitoso.",
                  data := some (ProbeData.tokensD modelId countTokensPrompt
                    response.totalTokens) }

/-- Probe 4, `runGeminiTests.countTokens`. Its `catch` returns
`{ success: false, message: error.message }`. -/
def runGeminiTests.countTokens (modelId? : Option String) (env : ProcessEnv)
    (stub : ClientStub) : Except JSError TestResult :=
  probeCatch (runGeminiTests.countTokensTry (modelId?.getD defaultModel) env stub)
    (fun error => { success := false, message := error.message, data := none })

/-- The fixed 1x1 red-pixel PNG payload of the vision probe. -/
def SAMPLE_IMAGE_BASE64 : String :=
  "iVBORw0KGgoAAAANSUhEUgAAAAEAAAABCAYAAAAfFcSJAAAADUlEQVR42mP8z8BQDwAEhQGAhKmMIQAAAABJRU5ErkJggg=="

/-- The text instruction of the vision probe. -/
def visionInstructionText : String :=
  "Describe esta imagen en 5 palabras o menos. (Es un pixel rojo)"

/-- The composite (image + text) request sent by the vision probe. -/
def visionRequest (modelId : String) : GenRequest :=
  { model := modelId,
    contents := Contents.parts
      [ContentPart.inlineDataPart "image/png" SAMPLE_IMAGE_BASE64,
       ContentPart.textPart visionInstructionText],
    config := none }

/-- `try`-body of `runGeminiTests.vision` (lines 125-149): one multimodal
`generateContent` call; the produced text is reported with no validation. -/
def runGeminiTests.visionTry (modelId : String) (env : ProcessEnv) (stub : ClientStub) :
    Except JSError TestResult :=
  match getAIClient env stub with
  | Except.error e => Except.error e
  | Except.ok ai =>
    match ai.generateContent (visionRequest modelId) with
    | Except.error e => Except.error e
    | Except.ok response =>
      Except.ok { success := true, message := some "Análisis de visión completado.",
                  data := some (ProbeData.visionD modelId response.text) }

/-- Probe 5, `runGeminiTests.vision`. Its `catch` interpolates the model id and the
error message into a template literal (coercing an `undefined` message to
`"undefined"`). -/
def runGeminiTests.vision (modelId? : Option String) (env : ProcessEnv) (stub : ClientStub) :
    Except JSError TestResult :=
  let modelId := modelId?.getD defaultModel
  probeCatch (runGeminiTests.visionTry modelId env stub)
    (fun error =>
      { success := false, message := some (visionErrorMsg modelId (jsStr error.message)),
        data := none })

/-- The side-channel system instruction of the system-instruction probe. -/
def sysInstructionText : String := "Eres un gato. Responde solo con \x27Miau\x27."

/-- The user prompt of the system-instruction probe. -/
def sysPromptText : String := "Hola, ¿cómo estás?"

/-- The request sent by the system-instruction probe (prompt plus `config` carrying the
system instruction). -/
def sysRequest (modelId : String) : GenRequest :=
  { model := modelId, contents := Contents.str sysPromptText,
    config := some { systemInstruction := sysInstructionText } }

/-- `try`-body of `runGeminiTests.systemInstruction` (lines 155-180): the produced text
(`response.text || ""`) is content-validated — success iff its lowercase form has
`"miau"` as a substring — and the full payload is returned as data either way. -/
def runGeminiTests.systemInstructionTry (modelId : String) (env : ProcessEnv)
    (stub : ClientStub) : Except JSError TestResult :=
  match getAIClient env stub with
  | Except.error e => Except.error e
  | Except.ok ai =>
    match ai.generateContent (sysRequest modelId) with
    | Except.error e => Except.error e
    | Except.ok response =>
      let text := jsOr response.text ""
      let isCorrect := strIncludes (strToLower text) "miau"
      Except.ok { success := isCorrect,
                  message := some (if isCorrect then "Instrucción del sistema respetada."
                    else "El modelo no siguió la instrucción del sistema estrictamente."),
                  data := some (ProbeData.sysD modelId sysInstructionText sysPromptText
                    text) }

/-- Probe 6, `runGeminiTests.systemInstruction`. Its `catch` returns
`{ success: false, message: error.message }`. -/
def runGeminiTests.systemInstruction (modelId? : Option String) (env : ProcessEnv)
    (stub : ClientStub) : Except JSError TestResult :=
  probeCatch (runGeminiTests.systemInstructionTry (modelId?.getD defaultModel) env stub)
    (fun error => { success := false, message := error.message, data := none })

/-- The fixed text embedded by the embedding probe. -/
def embeddingText : String := "Prueba de embedding"

/-- The fixed model identifier of the embedding probe (the probe takes no model
parameter; generation models typically do not support `embedContent`). -/
def embeddingModel : String := "text-embedding-004"

/-- The request sent by the embedding probe (explicit parts structure). -/
def embedRequest : EmbedRequest :=
  { model := embeddingModel,
    contents := [Contents.parts [ContentPart.textPart embeddingText]] }

/-- The error message thrown when the embedding response lacks a values vector. -/
def embeddingFailMsg : String :=
  "La respuesta no contiene valores de embedding. Revisa la consola para más detalles."

/-- `try`-body of `runGeminiTests.embedding` (lines 187-213), paired with the list of
`console.warn` records it emits: success needs `response.embedding` present and
`response.embedding.values` present (JS truthiness: an absent field is falsy, a present
array — even empty — is truthy); otherwise the raw response is logged and a
`MalformedResponseError`-style error is thrown. -/
def runGeminiTests.embeddingTry (env : ProcessEnv) (stub : ClientStub) :
    Except JSError TestResult × List WarnEntry :=
  match getAIClient env stub with
  | Except.error e => (Except.error e, [])
  | Except.ok ai =>
    match ai.embedContent embedRequest with
    | Except.error e => (Except.error e, [])
    | Except.ok response =>
      match response.embedding.bind EmbeddingObj.values with
      | some values =>
        (Except.ok { success := true, message := some "Embedding generado correctamente.",
                     data := some (ProbeData.embedD embeddingModel values.length) }, [])
      | none =>
        (Except.error { message := some embeddingFailMsg },
         [{ label := "Embedding response missing values:", response := response }])

/-- Probe 7, `runGeminiTests.embedding`: no model parameter; its `catch` returns
`{ success: false, message: error.message }`. The emitted warn log is part of the
observable outcome. -/
def runGeminiTests.embedding (env : ProcessEnv) (stub : ClientStub) :
    Except JSError (TestResult × List WarnEntry) :=
  match runGeminiTests.embeddingTry env stub with
  | (Except.ok r, warns) => Except.ok (r, warns)
  | (Except.error e, warns) =>
    Except.ok ({ success := false, message := e.message, data := none }, warns)

/-! ### Concrete environments and client stubs (used by witnesses and counterexamples) -/

/-- A thrown value with no `message` property. -/
def errNoMsg : JSError := { message := none }

/-- An environment holding a (truthy) API key. -/
def envOk : ProcessEnv := { API_KEY := some "k" }

/-- An environment with `API_KEY` undefined. -/
def envNoKey : ProcessEnv := { API_KEY := none }

/-- A client stub whose `generateContent` behaves as given and whose other methods throw
a messageless error. -/
def genStub (r : Except JSError GenResponse) : ClientStub :=
  { ctorError := none,
    generateContent := fun _ => r,
    generateContentStream := fun _ => Except.error errNoMsg,
    countTokens := fun _ => Except.error errNoMsg,
    embedContent := fun _ => Except.error errNoMsg }

/-- A client stub whose stream yields the given fragments in order and then completes. -/
def streamStubOf (frags : List String) : ClientStub :=
  { ctorError := none,
    generateContent := fun _ => Except.error errNoMsg,
    generateContentStream := fun _ =>
      Except.ok { chunks := frags.map (fun f => { text := some f }), thenError := none },
    countTokens := fun _ => Except.error errNoMsg,
    embedContent := fun _ => Except.error errNoMsg }

/-- A client stub whose `countTokens` behaves as given and whose other methods throw. -/
def countStubOf (r : Except JSError CountTokensResponse) : ClientStub :=
  { ctorError := none,
    generateContent := fun _ => Except.error errNoMsg,
    generateContentStream := fun _ => Except.error errNoMsg,
    countTokens := fun _ => r,
    embedContent := fun _ => Except.error errNoMsg }

/-- A client stub whose `embedContent` behaves as given and whose other methods throw. -/
def embedStubOf (r : Except JSError EmbedResponse) : ClientStub :=
  { ctorError := none,
    generateContent := fun _ => Except.error errNoMsg,
    generateContentStream := fun _ => Except.error errNoMsg,
    countTokens := fun _ => Except.error errNoMsg,
    embedContent := fun _ => r }

/-- A client stub every method of which throws the messageless error. -/
def stubThrowNoMsg : ClientStub :=
  { ctorError := none,
    generateContent := fun _ => Except.error errNoMsg,
    generateContentStream := fun _ => Except.error errNoMsg,
    countTokens := fun _ => Except.error errNoMsg,
    embedContent := fun _ => Except.error errNoMsg }

/-- A client stub every method of which throws an error carrying the message `"boom"`. -/
def stubThrowMsg : ClientStub :=
  { ctorError := none,
    generateContent := fun _ => Except.error { message := some "boom" },
    generateContentStream := fun _ => Except.error { message := some "boom" },
    countTokens := fun _ => Except.error { message := some "boom" },
    embedContent := fun _ => Except.error { message := some "boom" } }

/-- Stub answering `generateContent` with the non-empty text `"pong"`. -/
def stubPong : ClientStub := genStub (Except.ok { text := some "pong" })

/-- Stub answering `generateContent` with the empty text `""`. -/
def stubEmptyText : ClientStub := genStub (Except.ok { text := some "" })

/-- Stub answering `generateContent` with the text `"Miau!"`. -/
def stubMiau : ClientStub := genStub (Except.ok { text := some "Miau!" })

/-- Stub answering `generateContent` with the text `"Hello"`. -/
def stubHello : ClientStub := genStub (Except.ok { text := some "Hello" })

/-- A client stub that echoes the model id of the request it receives back through each
response, making the outbound model identifier observable in probe results. -/
def echoStub : ClientStub :=
  { ctorError := none,
    generateContent := fun req => Except.ok { text := some req.model },
    generateContentStream := fun req =>
      Except.ok { chunks := [{ text := some req.model }], thenError := none },
    countTokens := fun req => Except.ok { totalTokens := some req.model.length },
    embedContent := fun req =>
      Except.ok { embedding := some { values := some [Int.ofNat req.model.length] } } }

/-- A client stub whose `embedContent` succeeds only when the request's model id equals
`expected`, and throws `"model mismatch"` otherwise. -/
def modelCheckStub (expected : String) : ClientStub :=
  { ctorError := none,
    generateContent := fun _ => Except.error errNoMsg,
    generateContentStream := fun _ => Except.error errNoMsg,
    countTokens := fun _ => Except.error errNoMsg,
    embedContent := fun req =>
      if req.model = expected then Except.ok { embedding := some { values := some [0] } }
      else Except.error { message := some "model mismatch" } }

/-- Every error the stubbed client can raise (constructor, any call, or mid-stream)
carries a defined `message`. -/
def stubErrorsHaveMessages (stub : ClientStub) : Prop :=
  (∀ e, stub.ctorError = some e → e.message.isSome = true) ∧
  (∀ req e, stub.generateContent req = Except.error e → e.message.isSome = true) ∧
  (∀ req e, stub.generateContentStream req = Except.error e → e.message.isSome = true) ∧
  (∀ req sr e, stub.generateContentStream req = Except.ok sr → sr.thenError = some e →
    e.message.isSome = true) ∧
  (∀ req e, stub.countTokens req = Except.error e → e.message.isSome = true) ∧
  (∀ req e, stub.embedContent req = Except.error e → e.message.isSome = true)

/-! ### Helper lemmas -/

/-- A `probeCatch` boundary always returns normally: the handler itself never throws. -/
theorem probeCatch_isOk (body : Except JSError TestResult) (handler : JSError → TestResult) :
    ∃ r, probeCatch body handler = Except.ok r := by
  cases body with
  | ok r => exact ⟨r, rfl⟩
  | error e => exact ⟨handler e, rfl⟩

/-- Draining a completing stream of defined fragments concatenates them onto the
accumulator in arrival order and adds their number to the counter. -/
theorem streamLoop_complete (frags : List String) (acc : String) (n : Nat) :
    streamLoop (frags.map (fun f => { text := some f })) none acc n =
      Except.ok (frags.foldl (fun a b => a ++ b) acc, n + frags.length) := by
  induction frags generalizing acc n with
  | nil => simp [streamLoop]
  | cons f rest ih =>
    simp only [List.map_cons, streamLoop, jsStr, List.foldl_cons, List.length_cons]
    rw [ih]
    have h : n + 1 + rest.length = n + (rest.length + 1) := by omega
    rw [h]

/-- With a truthy key and a non-throwing constructor, `getAIClient` returns the client. -/
theorem getAIClient_ok (env : ProcessEnv) (stub : ClientStub)
    (hkey : strTruthy env.API_KEY = true) (hctor : stub.ctorError = none) :
    getAIClient env stub = Except.ok stub := by
  unfold getAIClient
  rw [hkey, hctor]
  simp

/-- The embedding probe on a client whose `embedContent` returns a values vector:
success with the vector's length. -/
theorem embedding_ok_values (env : ProcessEnv) (stub : ClientStub) (vals : List Int)
    (hkey : strTruthy env.API_KEY = true) (hctor : stub.ctorError = none)
    (hcall : stub.embedContent embedRequest =
      Except.ok { embedding := some { values := some vals } }) :
    runGeminiTests.embedding env stub = Except.ok
      ({ success := true, message := some "Embedding generado correctamente.",
         data := some (ProbeData.embedD embeddingModel vals.length) }, []) := by
  simp [runGeminiTests.embedding, runGeminiTests.embeddingTry,
    getAIClient_ok env stub hkey hctor, hcall]

/-! ### Claims -/

/-- C1: for every probe in the suite and every behaviour of the stubbed client
(constructor throwing, call throwing, response failing validation, and any other
modelled behaviour), the probe returns a normal `TestResult` record and never
propagates an error to its caller. -/
theorem C1_probes_never_throw (modelId? : Option String) (env : ProcessEnv)
    (stub : ClientStub) :
    (∃ r, runGeminiTests.connect modelId? env stub = Except.ok r) ∧
    (∃ r, runGeminiTests.generateText modelId? env stub = Except.ok r) ∧
    (∃ r, runGeminiTests.streamText modelId? env stub = Except.ok r) ∧
    (∃ r, runGeminiTests.countTokens modelId? env stub = Except.ok r) ∧
    (∃ r, runGeminiTests.vision modelId? env stub = Except.ok r) ∧
    (∃ r, runGeminiTests.systemInstruction modelId? env stub = Except.ok r) ∧
    (∃ p, runGeminiTests.embedding env stub = Except.ok p) := by
  refine ⟨probeCatch_isOk _ _, probeCatch_isOk _ _, probeCatch_isOk _ _, probeCatch_isOk _ _,
    probeCatch_isOk _ _, probeCatch_isOk _ _, ?_⟩
  rcases h : runGeminiTests.embeddingTry env stub with ⟨b, warns⟩
  cases b with
  | ok r => exact ⟨(r, warns), by simp [runGeminiTests.embedding, h]⟩
  | error e =>
    exact ⟨({ success := false, message := e.message, data := none }, warns),
      by simp [runGeminiTests.embedding, h]⟩

/-- C2: when `process.env.API_KEY` is absent, every probe returns `success := false`
with the missing-key configuration message (wrapped into the vision template for the
vision probe), and no error escapes. -/
theorem C2_missing_key (modelId? : Option String) (env : ProcessEnv) (stub : ClientStub)
    (hkey : env.API_KEY = none) :
    runGeminiTests.connect modelId? env stub = Except.ok
      { success := false, message := some "API Key no encontrada en process.env.API_KEY",
        data := none } ∧
    runGeminiTests.generateText modelId? env stub = Except.ok
      { success := false, message := some "API Key no encontrada en process.env.API_KEY",
        data := none } ∧
    runGeminiTests.streamText modelId? env stub = Except.ok
      { success := false, message := some "API Key no encontrada en process.env.API_KEY",
        data := none } ∧
    runGeminiTests.countTokens modelId? env stub = Except.ok
      { success := false, message := some "API Key no encontrada en process.env.API_KEY",
        data := none } ∧
    runGeminiTests.vision modelId? env stub = Except.ok
      { success := false,
        message := some (visionErrorMsg (modelId?.getD defaultModel)
          "API Key no encontrada en process.env.API_KEY"),
        data := none } ∧
    runGeminiTests.systemInstruction modelId? env stub = Except.ok
      { success := false, message := some "API Key no encontrada en process.env.API_KEY",
        data := none } ∧
    runGeminiTests.embedding env stub = Except.ok
      ({ success := false, message := some "API Key no encontrada en process.env.API_KEY",
         data := none }, []) := by
  obtain ⟨k⟩ := env
  have hk : k = none := hkey
  subst hk
  exact ⟨rfl, rfl, rfl, rfl, rfl, rfl, rfl⟩

/-- C3: for the system-instruction probe with a completing stubbed call, `success` is
exactly the case-insensitive substring test for `"miau"` on the produced text; output
`"Miau!"` yields success with the compliance message, output `"Hello"` yields failure
with the distinct non-compliance message even though the call succeeded. -/
theorem C3_system_instruction_validation (modelId? : Option String) (env : ProcessEnv)
    (stub : ClientStub) (response : GenResponse)
    (hkey : strTruthy env.API_KEY = true) (hctor : stub.ctorError = none)
    (hcall : stub.generateContent (sysRequest (modelId?.getD defaultModel)) =
      Except.ok response) :
    runGeminiTests.systemInstruction modelId? env stub = Except.ok
      { success := strIncludes (strToLower (jsOr response.text "")) "miau",
        message := some (if strIncludes (strToLower (jsOr response.text "")) "miau" then
          "Instrucción del sistema respetada."
          else "El modelo no siguió la instrucción del sistema estrictamente."),
        data := some (ProbeData.sysD (modelId?.getD defaultModel) sysInstructionText
          sysPromptText (jsOr response.text "")) } ∧
    runGeminiTests.systemInstruction none envOk stubMiau = Except.ok
      { success := true, message := some "Instrucción del sistema respetada.",
        data := some (ProbeData.sysD defaultModel sysInstructionText sysPromptText
          "Miau!") } ∧
    runGeminiTests.systemInstruction none envOk stubHello = Except.ok
      { success := false,
        message := some "El modelo no siguió la instrucción del sistema estrictamente.",
        data := some (ProbeData.sysD defaultModel sysInstructionText sysPromptText
          "Hello") } := by
  refine ⟨?_, rfl, rfl⟩
  simp [runGeminiTests.systemInstruction, runGeminiTests.systemInstructionTry,
    getAIClient_ok env stub hkey hctor, hcall, probeCatch]

/-- C4: for the streaming probe, a stubbed stream delivering `["1,", "2,", "3"]` yields
success with `chunkCount = 3` and `fullText = "1,2,3"`; in general a completing stream
of fragments yields their in-order concatenation and their count. -/
theorem C4_stream_concatenation (modelId? : Option String) (env : ProcessEnv)
    (stub : ClientStub) (frags : List String)
    (hkey : strTruthy env.API_KEY = true) (hctor : stub.ctorError = none)
    (hstream : stub.generateContentStream (streamRequest (modelId?.getD defaultModel)) =
      Except.ok { chunks := frags.map (fun f => { text := some f }), thenError := none }) :
    runGeminiTests.streamText modelId? env stub = Except.ok
      { success := true, message := some (streamSuccessMsg frags.length),
        data := some (ProbeData.streamD (modelId?.getD defaultModel)
          (frags.foldl (fun a b => a ++ b) "") frags.length) } ∧
    runGeminiTests.streamText none envOk (streamStubOf ["1,", "2,", "3"]) = Except.ok
      { success := true, message := some (streamSuccessMsg 3),
        data := some (ProbeData.streamD defaultModel "1,2,3" 3) } := by
  refine ⟨?_, rfl⟩
  simp [runGeminiTests.streamText, runGeminiTests.streamTextTry,
    getAIClient_ok env stub hkey hctor, hstream, probeCatch, streamLoop_complete]

/-- C5: for the connectivity probe, an empty reply text is a failure (mapped from the
empty-response error), and the reply `"pong"` is a success carrying `reply = "pong"`. -/
theorem C5_connect_empty_vs_pong (modelId? : Option String) (env : ProcessEnv)
    (stub : ClientStub)
    (hkey : strTruthy env.API_KEY = true) (hctor : stub.ctorError = none) :
    (stub.generateContent (connectRequest (modelId?.getD defaultModel)) =
        Except.ok { text := some "" } →
      runGeminiTests.connect modelId? env stub = Except.ok
        { success := false, message := some "Respuesta vacía del servidor.",
          data := none }) ∧
    (stub.generateContent (connectRequest (modelId?.getD defaultModel)) =
        Except.ok { text := some "pong" } →
      runGeminiTests.connect modelId? env stub = Except.ok
        { success := true, message := some (connectSuccessMsg (modelId?.getD defaultModel)),
          data := some (ProbeData.connectD (some "pong")) }) := by
  constructor
  · intro hcall
    simp [runGeminiTests.connect, runGeminiTests.connectTry,
      getAIClient_ok env stub hkey hctor, hcall, probeCatch, strTruthy, jsOr]
  · intro hcall
    simp [runGeminiTests.connect, runGeminiTests.connectTry,
      getAIClient_ok env stub hkey hctor, hcall, probeCatch, strTruthy]

/-- C6: for the embedding probe, a response carrying a values vector of length 768
yields success with `vectorLength = 768`; a response whose `embedding` container or
`values` vector is absent yields the malformed-response failure, preceded by a
`console.warn` diagnostic record of the raw response. -/
theorem C6_embedding_validation (env : ProcessEnv) (stub : ClientStub)
    (vals : List Int) (resp : EmbedResponse)
    (hkey : strTruthy env.API_KEY = true) (hctor : stub.ctorError = none) :
    (stub.embedContent embedRequest =
        Except.ok { embedding := some { values := some vals } } →
      runGeminiTests.embedding env stub = Except.ok
        ({ success := true, message := some "Embedding generado correctamente.",
           data := some (ProbeData.embedD embeddingModel vals.length) }, [])) ∧
    (stub.embedContent embedRequest = Except.ok resp →
      resp.embedding.bind EmbeddingObj.values = none →
      runGeminiTests.embedding env stub = Except.ok
        ({ success := false, message := some embeddingFailMsg, data := none },
         [{ label := "Embedding response missing values:", response := resp }])) ∧
    runGeminiTests.embedding envOk (embedStubOf (Except.ok
        { embedding := some { values := some (List.replicate 768 0) } })) = Except.ok
      ({ success := true, message := some "Embedding generado correctamente.",
         data := some (ProbeData.embedD embeddingModel 768) }, []) ∧
    runGeminiTests.embedding envOk (embedStubOf (Except.ok { embedding := none })) =
      Except.ok
        ({ success := false, message := some embeddingFailMsg, data := none },
         [{ label := "Embedding response missing values:",
            response := { embedding := none } }]) := by
  refine ⟨?_, ?_, ?_, rfl⟩
  · intro hcall
    exact embedding_ok_values env stub vals hkey hctor hcall
  · intro hcall hmiss
    simp [runGeminiTests.embedding, runGeminiTests.embeddingTry,
      getAIClient_ok env stub hkey hctor, hcall, hmiss]
  · have h := embedding_ok_values envOk
      (embedStubOf (Except.ok { embedding := some { values := some (List.replicate 768 0) } }))
      (List.replicate 768 0) rfl rfl rfl
    rw [List.length_replicate] at h
    exact h

/-- C7: for the text-generation probe, any completing stubbed call yields
`success := true` with the produced (possibly empty) output, the echoed prompt and the
model id as data: no content validation is performed. -/
theorem C7_generateText_no_validation (modelId? : Option String) (env : ProcessEnv)
    (stub : ClientStub) (response : GenResponse)
    (hkey : strTruthy env.API_KEY = true) (hctor : stub.ctorError = none)
    (hcall : stub.generateContent (generateTextRequest (modelId?.getD defaultModel)) =
      Except.ok response) :
    runGeminiTests.generateText modelId? env stub = Except.ok
      { success := true, message := some "Generación de texto correcta.",
        data := some (ProbeData.generateD (modelId?.getD defaultModel)
          generateTextPrompt response.text) } ∧
    runGeminiTests.generateText none envOk stubEmptyText = Except.ok
      { success := true, message := some "Generación de texto correcta.",
        data := some (ProbeData.generateD defaultModel generateTextPrompt (some "")) } := by
  refine ⟨?_, rfl⟩
  simp [runGeminiTests.generateText, runGeminiTests.generateTextTry,
    getAIClient_ok env stub hkey hctor, hcall, probeCatch]

/-- Witness for C2: concrete missing-key environment, concrete stub. -/
theorem C2_missing_key_witness :
    envNoKey.API_KEY = none ∧
    runGeminiTests.connect none envNoKey stubPong = Except.ok
      { success := false, message := some "API Key no encontrada en process.env.API_KEY",
        data := none } :=
  ⟨rfl, (C2_missing_key none envNoKey stubPong rfl).1⟩

/-- Witness for C3: the `"Miau!"` stub run through the system-instruction probe. -/
theorem C3_system_instruction_validation_witness :
    strTruthy envOk.API_KEY = true ∧
    runGeminiTests.systemInstruction none envOk stubMiau = Except.ok
      { success := true, message := some "Instrucción del sistema respetada.",
        data := some (ProbeData.sysD defaultModel sysInstructionText sysPromptText
          "Miau!") } :=
  ⟨rfl, (C3_system_instruction_validation none envOk stubMiau { text := some "Miau!" }
    rfl rfl rfl).2.1⟩

/-- Witness for C4: the `["1,", "2,", "3"]` stream stub run through the probe. -/
theorem C4_stream_concatenation_witness :
    strTruthy envOk.API_KEY = true ∧
    runGeminiTests.streamText none envOk (streamStubOf ["1,", "2,", "3"]) = Except.ok
      { success := true, message := some (streamSuccessMsg 3),
        data := some (ProbeData.streamD defaultModel "1,2,3" 3) } :=
  ⟨rfl, (C4_stream_concatenation none envOk (streamStubOf ["1,", "2,", "3"])
    ["1,", "2,", "3"] rfl rfl rfl).2⟩

/-- Witness for C5: the empty-text stub and the `"pong"` stub run through the probe. -/
theorem C5_connect_empty_vs_pong_witness :
    runGeminiTests.connect none envOk stubEmptyText = Except.ok
      { success := false, message := some "Respuesta vacía del servidor.",
        data := none } ∧
    runGeminiTests.connect none envOk stubPong = Except.ok
      { success := true, message := some (connectSuccessMsg defaultModel),
        data := some (ProbeData.connectD (some "pong")) } :=
  ⟨(C5_connect_empty_vs_pong none envOk stubEmptyText rfl rfl).1 rfl,
   (C5_connect_empty_vs_pong none envOk stubPong rfl rfl).2 rfl⟩

/-- Witness for C6: a stub answering a 768-entry vector run through the probe. -/
theorem C6_embedding_validation_witness :
    strTruthy envOk.API_KEY = true ∧
    runGeminiTests.embedding envOk (embedStubOf (Except.ok
        { embedding := some { values := some (List.replicate 768 0) } })) = Except.ok
      ({ success := true, message := some "Embedding generado correctamente.",
         data := some (ProbeData.embedD embeddingModel 768) }, []) :=
  ⟨rfl, (C6_embedding_validation envOk (embedStubOf (Except.ok
      { embedding := some { values := some (List.replicate 768 0) } }))
    [] { embedding := none } rfl rfl).2.2.1⟩

/-- Witness for C7: the empty-text stub run through the text-generation probe. -/
theorem C7_generateText_no_validation_witness :
    stubEmptyText.generateContent (generateTextRequest (Option.getD none defaultModel)) =
      Except.ok { text := some "" } ∧
    runGeminiTests.generateText none envOk stubEmptyText = Except.ok
      { success := true, message := some "Generación de texto correcta.",
        data := some (ProbeData.generateD defaultModel generateTextPrompt (some "")) } :=
  ⟨rfl, (C7_generateText_no_validation none envOk stubEmptyText { text := some "" }
    rfl rfl rfl).2⟩


/-! ### Inversion lemmas on probe bodies (shared by the message and data-shape claims) -/

/-- Any error thrown by `getAIClient` carries a message, provided a throwing
constructor would. -/
theorem getAIClient_error_isSome (env : ProcessEnv) (stub : ClientStub)
    (hctor : ∀ e, stub.ctorError = some e → e.message.isSome = true) :
    ∀ e, getAIClient env stub = Except.error e → e.message.isSome = true := by
  intro e h
  unfold getAIClient at h
  by_cases hk : strTruthy env.API_KEY = true
  · rw [if_pos hk] at h
    cases hc : stub.ctorError with
    | some e2 => simp only [hc] at h; injection h with h2; subst h2; exact hctor _ hc
    | none => simp only [hc] at h; exact (Except.noConfusion h)
  · rw [if_neg hk] at h
    injection h with h2
    subst h2
    rfl

/-- A successful `getAIClient` hands back the constructed client itself. -/
theorem getAIClient_ok_inv (env : ProcessEnv) (stub : ClientStub) (ai : ClientStub)
    (h : getAIClient env stub = Except.ok ai) : ai = stub := by
  unfold getAIClient at h
  by_cases hk : strTruthy env.API_KEY = true
  · rw [if_pos hk] at h
    cases hc : stub.ctorError with
    | some e2 => simp only [hc] at h; exact (Except.noConfusion h)
    | none => simp only [hc] at h; injection h with h2; exact h2.symm
  · rw [if_neg hk] at h
    exact (Except.noConfusion h)

/-- A `streamLoop` that throws does so with the stream's own mid-iteration error. -/
theorem streamLoop_error (chunks : List GenResponse) (tail : Option JSError)
    (acc : String) (n : Nat) (e : JSError)
    (h : streamLoop chunks tail acc n = Except.error e) : tail = some e := by
  induction chunks generalizing acc n with
  | nil =>
    cases tail with
    | none => exact (Except.noConfusion h)
    | some e2 => injection h with h2; subst h2; rfl
  | cons c rest ih => exact ih _ _ h

/-- A normally returning connect body is the fixed success record shape. -/
theorem connectTry_ok_inv (m : String) (env : ProcessEnv) (stub : ClientStub)
    (r : TestResult) (h : runGeminiTests.connectTry m env stub = Except.ok r) :
    r.success = true ∧ r.message = some (connectSuccessMsg m) := by
  unfold runGeminiTests.connectTry at h
  cases hg : getAIClient env stub with
  | error e2 => simp only [hg] at h; exact (Except.noConfusion h)
  | ok ai =>
    simp only [hg] at h
    cases hc : ai.generateContent (connectRequest m) with
    | error e2 => simp only [hc] at h; exact (Except.noConfusion h)
    | ok response =>
      simp only [hc] at h
      by_cases ht : strTruthy response.text = true
      · rw [if_pos ht] at h
        injection h with h2
        subst h2
        exact ⟨rfl, rfl⟩
      · rw [if_neg ht] at h
        exact (Except.noConfusion h)

/-- A normally returning generate-text body is the fixed success record shape. -/
theorem generateTextTry_ok_inv (m : String) (env : ProcessEnv) (stub : ClientStub)
    (r : TestResult) (h : runGeminiTests.generateTextTry m env stub = Except.ok r) :
    r.success = true ∧ r.message = some "Generación de texto correcta." := by
  unfold runGeminiTests.generateTextTry at h
  cases hg : getAIClient env stub with
  | error e2 => simp only [hg] at h; exact (Except.noConfusion h)
  | ok ai =>
    simp only [hg] at h
    cases hc : ai.generateContent (generateTextRequest m) with
    | error e2 => simp only [hc] at h; exact (Except.noConfusion h)
    | ok response =>
      simp only [hc] at h
      injection h with h2
      subst h2
      exact ⟨rfl, rfl⟩

/-- A normally returning stream body is a success record with a chunk-count message. -/
theorem streamTextTry_ok_inv (m : String) (env : ProcessEnv) (stub : ClientStub)
    (r : TestResult) (h : runGeminiTests.streamTextTry m env stub = Except.ok r) :
    r.success = true ∧ ∃ k, r.message = some (streamSuccessMsg k) := by
  unfold runGeminiTests.streamTextTry at h
  cases hg : getAIClient env stub with
  | error e2 => simp only [hg] at h; exact (Except.noConfusion h)
  | ok ai =>
    simp only [hg] at h
    cases hc : ai.generateContentStream (streamRequest m) with
    | error e2 => simp only [hc] at h; exact (Except.noConfusion h)
    | ok responseStream =>
      simp only [hc] at h
      cases hl : streamLoop responseStream.chunks responseStream.thenError "" 0 with
      | error e2 => simp only [hl] at h; exact (Except.noConfusion h)
      | ok p =>
        simp only [hl] at h
        injection h with h2
        subst h2
        exact ⟨rfl, p.2, rfl⟩

/-- A normally returning token-count body is the fixed success record shape. -/
theorem countTokensTry_ok_inv (m : String) (env : ProcessEnv) (stub : ClientStub)
    (r : TestResult) (h : runGeminiTests.countTokensTry m env stub = Except.ok r) :
    r.success = true ∧ r.message = some "Conteo de tokens exitoso." := by
  unfold runGeminiTests.countTokensTry at h
  cases hg : getAIClient env stub with
  | error e2 => simp only [hg] at h; exact (Except.noConfusion h)
  | ok ai =>
    simp only [hg] at h
    cases hc : ai.countTokens (countTokensRequest m) with
    | error e2 => simp only [hc] at h; exact (Except.noConfusion h)
    | ok response =>
      simp only [hc] at h
      injection h with h2
      subst h2
      exact ⟨rfl, rfl⟩

/-- A normally returning vision body is the fixed success record shape. -/
theorem visionTry_ok_inv (m : String) (env : ProcessEnv) (stub : ClientStub)
    (r : TestResult) (h : runGeminiTests.visionTry m env stub = Except.ok r) :
    r.success = true ∧ r.message = some "Análisis de visión completado." := by
  unfold runGeminiTests.visionTry at h
  cases hg : getAIClient env stub with
  | error e2 => simp only [hg] at h; exact (Except.noConfusion h)
  | ok ai =>
    simp only [hg] at h
    cases hc : ai.generateContent (visionRequest m) with
    | error e2 => simp only [hc] at h; exact (Except.noConfusion h)
    | ok response =>
      simp only [hc] at h
      injection h with h2
      subst h2
      exact ⟨rfl, rfl⟩

/-- A normally returning system-instruction body is the validated record over the
produced text. -/
theorem sysTry_ok_inv (m : String) (env : ProcessEnv) (stub : ClientStub)
    (r : TestResult) (h : runGeminiTests.systemInstructionTry m env stub = Except.ok r) :
    ∃ text, r =
      { success := strIncludes (strToLower text) "miau",
        message := some (if strIncludes (strToLower text) "miau" then
          "Instrucción del sistema respetada."
          else "El modelo no siguió la instrucción del sistema estrictamente."),
        data := some (ProbeData.sysD m sysInstructionText sysPromptText text) } := by
  unfold runGeminiTests.systemInstructionTry at h
  cases hg : getAIClient env stub with
  | error e2 => simp only [hg] at h; exact (Except.noConfusion h)
  | ok ai =>
    simp only [hg] at h
    cases hc : ai.generateContent (sysRequest m) with
    | error e2 => simp only [hc] at h; exact (Except.noConfusion h)
    | ok response =>
      simp only [hc] at h
      injection h with h2
      subst h2
      exact ⟨jsOr response.text "", rfl⟩

/-- A normally returning embedding body is the fixed success record and no warn log. -/
theorem embeddingTry_ok_inv (env : ProcessEnv) (stub : ClientStub)
    (r : TestResult) (warns : List WarnEntry)
    (h : runGeminiTests.embeddingTry env stub = (Except.ok r, warns)) :
    r.success = true ∧ r.message = some "Embedding generado correctamente." := by
  unfold runGeminiTests.embeddingTry at h
  cases hg : getAIClient env stub with
  | error e2 => simp only [hg] at h; injection h with h1 h2; exact (Except.noConfusion h1)
  | ok ai =>
    simp only [hg] at h
    cases hc : ai.embedContent embedRequest with
    | error e2 => simp only [hc] at h; injection h with h1 h2; exact (Except.noConfusion h1)
    | ok response =>
      simp only [hc] at h
      cases hv : response.embedding.bind EmbeddingObj.values with
      | some values =>
        simp only [hv] at h
        injection h with h1 h2
        injection h1 with h3
        subst h3
        exact ⟨rfl, rfl⟩
      | none =>
        simp only [hv] at h
        injection h with h1 h2
        exact (Except.noConfusion h1)

/-- Any error propagating out of the generate-text body carries a message (under a stub
whose errors all do). -/
theorem generateTextTry_error_isSome (m : String) (env : ProcessEnv) (stub : ClientStub)
    (hmsg : stubErrorsHaveMessages stub) :
    ∀ e, runGeminiTests.generateTextTry m env stub = Except.error e →
      e.message.isSome = true := by
  intro e h
  unfold runGeminiTests.generateTextTry at h
  cases hg : getAIClient env stub with
  | error e2 =>
    simp only [hg] at h
    injection h with h2
    subst h2
    exact getAIClient_error_isSome env stub hmsg.1 _ hg
  | ok ai =>
    have hai : ai = stub := getAIClient_ok_inv env stub ai hg
    subst hai
    simp only [hg] at h
    cases hc : ai.generateContent (generateTextRequest m) with
    | error e2 =>
      simp only [hc] at h
      injection h with h2
      subst h2
      exact hmsg.2.1 _ _ hc
    | ok response => simp only [hc] at h; exact (Except.noConfusion h)

/-- Any error propagating out of the streaming body carries a message (under a stub
whose errors all do). -/
theorem streamTextTry_error_isSome (m : String) (env : ProcessEnv) (stub : ClientStub)
    (hmsg : stubErrorsHaveMessages stub) :
    ∀ e, runGeminiTests.streamTextTry m env stub = Except.error e →
      e.message.isSome = true := by
  intro e h
  unfold runGeminiTests.streamTextTry at h
  cases hg : getAIClient env stub with
  | error e2 =>
    simp only [hg] at h
    injection h with h2
    subst h2
    exact getAIClient_error_isSome env stub hmsg.1 _ hg
  | ok ai =>
    have hai : ai = stub := getAIClient_ok_inv env stub ai hg
    subst hai
    simp only [hg] at h
    cases hc : ai.generateContentStream (streamRequest m) with
    | error e2 =>
      simp only [hc] at h
      injection h with h2
      subst h2
      exact hmsg.2.2.1 _ _ hc
    | ok responseStream =>
      simp only [hc] at h
      cases hl : streamLoop responseStream.chunks responseStream.thenError "" 0 with
      | error e2 =>
        simp only [hl] at h
        injection h with h2
        subst h2
        exact hmsg.2.2.2.1 _ _ _ hc (streamLoop_error _ _ _ _ _ hl)
      | ok p => simp only [hl] at h; exact (Except.noConfusion h)

/-- Any error propagating out of the token-count body carries a message (under a stub
whose errors all do). -/
theorem countTokensTry_error_isSome (m : String) (env : ProcessEnv) (stub : ClientStub)
    (hmsg : stubErrorsHaveMessages stub) :
    ∀ e, runGeminiTests.countTokensTry m env stub = Except.error e →
      e.message.isSome = true := by
  intro e h
  unfold runGeminiTests.countTokensTry at h
  cases hg : getAIClient env stub with
  | error e2 =>
    simp only [hg] at h
    injection h with h2
    subst h2
    exact getAIClient_error_isSome env stub hmsg.1 _ hg
  | ok ai =>
    have hai : ai = stub := getAIClient_ok_inv env stub ai hg
    subst hai
    simp only [hg] at h
    cases hc : ai.countTokens (countTokensRequest m) with
    | error e2 =>
      simp only [hc] at h
      injection h with h2
      subst h2
      exact hmsg.2.2.2.2.1 _ _ hc
    | ok response => simp only [hc] at h; exact (Except.noConfusion h)

/-- Any error propagating out of the system-instruction body carries a message (under a
stub whose errors all do). -/
theorem sysTry_error_isSome (m : String) (env : ProcessEnv) (stub : ClientStub)
    (hmsg : stubErrorsHaveMessages stub) :
    ∀ e, runGeminiTests.systemInstructionTry m env stub = Except.error e →
      e.message.isSome = true := by
  intro e h
  unfold runGeminiTests.systemInstructionTry at h
  cases hg : getAIClient env stub with
  | error e2 =>
    simp only [hg] at h
    injection h with h2
    subst h2
    exact getAIClient_error_isSome env stub hmsg.1 _ hg
  | ok ai =>
    have hai : ai = stub := getAIClient_ok_inv env stub ai hg
    subst hai
    simp only [hg] at h
    cases hc : ai.generateContent (sysRequest m) with
    | error e2 =>
      simp only [hc] at h
      injection h with h2
      subst h2
      exact hmsg.2.1 _ _ hc
    | ok response => simp only [hc] at h; exact (Except.noConfusion h)

/-- Any error propagating out of the embedding body carries a message (under a stub
whose errors all do); the malformed-response error carries its fixed text. -/
theorem embeddingTry_error_isSome (env : ProcessEnv) (stub : ClientStub)
    (hmsg : stubErrorsHaveMessages stub) :
    ∀ e warns, runGeminiTests.embeddingTry env stub = (Except.error e, warns) →
      e.message.isSome = true := by
  intro e warns h
  unfold runGeminiTests.embeddingTry at h
  cases hg : getAIClient env stub with
  | error e2 =>
    simp only [hg] at h
    injection h with h1 h2
    injection h1 with h3
    subst h3
    exact getAIClient_error_isSome env stub hmsg.1 _ hg
  | ok ai =>
    have hai : ai = stub := getAIClient_ok_inv env stub ai hg
    subst hai
    simp only [hg] at h
    cases hc : ai.embedContent embedRequest with
    | error e2 =>
      simp only [hc] at h
      injection h with h1 h2
      injection h1 with h3
      subst h3
      exact hmsg.2.2.2.2.2 _ _ hc
    | ok response =>
      simp only [hc] at h
      cases hv : response.embedding.bind EmbeddingObj.values with
      | some values =>
        simp only [hv] at h
        injection h with h1 h2
        exact (Except.noConfusion h1)
      | none =>
        simp only [hv] at h
        injection h with h1 h2
        injection h1 with h3
        subst h3
        rfl

/-- C8 (counterexample): the claim "message is always a present, defined string on the
failure path, including when the caught error carries no message" fails for the
text-generation probe: a call throwing a value with no `message` property yields
`success := false` with `message = none` (the JS value `undefined`), because its catch
passes `error.message` through with no fallback. -/
theorem C8_counterexample :
    runGeminiTests.generateText none envOk stubThrowNoMsg =
      Except.ok { success := false, message := none, data := none } := rfl

/-- C8 (amended): a successful result's `message` is the probe's fixed success text
(never an exception message); on the failure path `message` is derived from the caught
error: it is always a defined string for the connect probe (fallback `"Error de
conexión"`) and the vision probe (template interpolation), and for the remaining probes
it equals the caught error's message, hence is defined whenever every error the stubbed
client can throw carries a defined message. -/
theorem C8_amended (modelId? : Option String) (env : ProcessEnv) (stub : ClientStub)
    (hmsg : stubErrorsHaveMessages stub) :
    (∀ r, runGeminiTests.connect modelId? env stub = Except.ok r →
      r.message.isSome = true ∧
      (r.success = true →
        r.message = some (connectSuccessMsg (modelId?.getD defaultModel)))) ∧
    (∀ r, runGeminiTests.generateText modelId? env stub = Except.ok r →
      r.message.isSome = true ∧
      (r.success = true → r.message = some "Generación de texto correcta.")) ∧
    (∀ r, runGeminiTests.streamText modelId? env stub = Except.ok r →
      r.message.isSome = true ∧
      (r.success = true → ∃ k, r.message = some (streamSuccessMsg k))) ∧
    (∀ r, runGeminiTests.countTokens modelId? env stub = Except.ok r →
      r.message.isSome = true ∧
      (r.success = true → r.message = some "Conteo de tokens exitoso.")) ∧
    (∀ r, runGeminiTests.vision modelId? env stub = Except.ok r →
      r.message.isSome = true ∧
      (r.success = true → r.message = some "Análisis de visión completado.")) ∧
    (∀ r, runGeminiTests.systemInstruction modelId? env stub = Except.ok r →
      r.message.isSome = true ∧
      (r.success = true → r.message = some "Instrucción del sistema respetada.")) ∧
    (∀ r warns, runGeminiTests.embedding env stub = Except.ok (r, warns) →
      r.message.isSome = true ∧
      (r.success = true → r.message = some "Embedding generado correctamente.")) ∧
    (∀ stub2 r, runGeminiTests.connect modelId? env stub2 = Except.ok r →
      r.message.isSome = true) ∧
    (∀ stub2 r, runGeminiTests.vision modelId? env stub2 = Except.ok r →
      r.message.isSome = true) := by
  refine ⟨?_, ?_, ?_, ?_, ?_, ?_, ?_, ?_, ?_⟩
  · intro r h
    unfold runGeminiTests.connect at h
    cases hb : runGeminiTests.connectTry (modelId?.getD defaultModel) env stub with
    | ok r2 =>
      simp only [hb, probeCatch] at h
      injection h with h2
      subst h2
      have hi := connectTry_ok_inv _ env stub r2 hb
      exact ⟨by rw [hi.2]; rfl, fun _ => hi.2⟩
    | error e =>
      simp only [hb, probeCatch] at h
      injection h with h2
      subst h2
      exact ⟨rfl, fun hs => by simp at hs⟩
  · intro r h
    unfold runGeminiTests.generateText at h
    cases hb : runGeminiTests.generateTextTry (modelId?.getD defaultModel) env stub with
    | ok r2 =>
      simp only [hb, probeCatch] at h
      injection h with h2
      subst h2
      have hi := generateTextTry_ok_inv _ env stub r2 hb
      exact ⟨by rw [hi.2]; rfl, fun _ => hi.2⟩
    | error e =>
      simp only [hb, probeCatch] at h
      injection h with h2
      subst h2
      exact ⟨generateTextTry_error_isSome _ env stub hmsg e hb, fun hs => by simp at hs⟩
  · intro r h
    unfold runGeminiTests.streamText at h
    cases hb : runGeminiTests.streamTextTry (modelId?.getD defaultModel) env stub with
    | ok r2 =>
      simp only [hb, probeCatch] at h
      injection h with h2
      subst h2
      have hi := streamTextTry_ok_inv _ env stub r2 hb
      obtain ⟨k, hk⟩ := hi.2
      exact ⟨by rw [hk]; rfl, fun _ => ⟨k, hk⟩⟩
    | error e =>
      simp only [hb, probeCatch] at h
      injection h with h2
      subst h2
      exact ⟨streamTextTry_error_isSome _ env stub hmsg e hb, fun hs => by simp at hs⟩
  · intro r h
    unfold runGeminiTests.countTokens at h
    cases hb : runGeminiTests.countTokensTry (modelId?.getD defaultModel) env stub with
    | ok r2 =>
      simp only [hb, probeCatch] at h
      injection h with h2
      subst h2
      have hi := countTokensTry_ok_inv _ env stub r2 hb
      exact ⟨by rw [hi.2]; rfl, fun _ => hi.2⟩
    | error e =>
      simp only [hb, probeCatch] at h
      injection h with h2
      subst h2
      exact ⟨countTokensTry_error_isSome _ env stub hmsg e hb, fun hs => by simp at hs⟩
  · intro r h
    unfold runGeminiTests.vision at h
    cases hb : runGeminiTests.visionTry (modelId?.getD defaultModel) env stub with
    | ok r2 =>
      simp only [hb, probeCatch] at h
      injection h with h2
      subst h2
      have hi := visionTry_ok_inv _ env stub r2 hb
      exact ⟨by rw [hi.2]; rfl, fun _ => hi.2⟩
    | error e =>
      simp only [hb, probeCatch] at h
      injection h with h2
      subst h2
      exact ⟨rfl, fun hs => by simp at hs⟩
  · intro r h
    unfold runGeminiTests.systemInstruction at h
    cases hb : runGeminiTests.systemInstructionTry (modelId?.getD defaultModel) env stub with
    | ok r2 =>
      simp only [hb, probeCatch] at h
      injection h with h2
      subst h2
      obtain ⟨t, ht⟩ := sysTry_ok_inv _ env stub r2 hb
      subst ht
      constructor
      · rfl
      · intro hs
        simp only [TestResult.success] at hs
        simp [hs]
    | error e =>
      simp only [hb, probeCatch] at h
      injection h with h2
      subst h2
      exact ⟨sysTry_error_isSome _ env stub hmsg e hb, fun hs => by simp at hs⟩
  · intro r warns h
    unfold runGeminiTests.embedding at h
    rcases hbt : runGeminiTests.embeddingTry env stub with ⟨b, warns2⟩
    cases b with
    | ok r2 =>
      simp only [hbt] at h
      injection h with h1
      injection h1 with h2 h3
      subst h2
      have hi := embeddingTry_ok_inv env stub r2 warns2 hbt
      exact ⟨by rw [hi.2]; rfl, fun _ => hi.2⟩
    | error e =>
      simp only [hbt] at h
      injection h with h1
      injection h1 with h2 h3
      subst h2
      exact ⟨embeddingTry_error_isSome env stub hmsg e warns2 hbt,
        fun hs => by simp at hs⟩
  · intro stub2 r h
    unfold runGeminiTests.connect at h
    cases hb : runGeminiTests.connectTry (modelId?.getD defaultModel) env stub2 with
    | ok r2 =>
      simp only [hb, probeCatch] at h
      injection h with h2
      subst h2
      have hi := connectTry_ok_inv _ env stub2 r2 hb
      rw [hi.2]
      rfl
    | error e =>
      simp only [hb, probeCatch] at h
      injection h with h2
      subst h2
      rfl
  · intro stub2 r h
    unfold runGeminiTests.vision at h
    cases hb : runGeminiTests.visionTry (modelId?.getD defaultModel) env stub2 with
    | ok r2 =>
      simp only [hb, probeCatch] at h
      injection h with h2
      subst h2
      have hi := visionTry_ok_inv _ env stub2 r2 hb
      rw [hi.2]
      rfl
    | error e =>
      simp only [hb, probeCatch] at h
      injection h with h2
      subst h2
      rfl

/-- The all-throwing stub with message `"boom"` only raises errors carrying messages. -/
theorem stubThrowMsg_spec : stubErrorsHaveMessages stubThrowMsg := by
  refine ⟨?_, ?_, ?_, ?_, ?_, ?_⟩
  · intro e he
    exact (Option.noConfusion he)
  · intro req e he
    injection he with h2
    subst h2
    rfl
  · intro req e he
    injection he with h2
    subst h2
    rfl
  · intro req sr e hok hsr
    exact (Except.noConfusion hok)
  · intro req e he
    injection he with h2
    subst h2
    rfl
  · intro req e he
    injection he with h2
    subst h2
    rfl

/-- Witness for C8 (amended): a fully message-carrying stub run through the
text-generation probe yields a defined failure message. -/
theorem C8_amended_witness :
    stubErrorsHaveMessages stubThrowMsg ∧
    ({ success := false, message := some "boom", data := none } :
      TestResult).message.isSome = true :=
  ⟨stubThrowMsg_spec,
   ((C8_amended none envOk stubThrowMsg stubThrowMsg_spec).2.1 _ rfl).1⟩

/-- C9 (counterexample): the embedding probe has no model-identifier parameter; its
outbound request is the fixed `embedRequest` whose model is `"text-embedding-004"`.  A
stub accepting only that id succeeds and a stub expecting the generation default model
fails, so no override can reach the outbound request. -/
theorem C9_counterexample :
    embedRequest.model = "text-embedding-004" ∧
    runGeminiTests.embedding envOk (modelCheckStub "text-embedding-004") =
      Except.ok ({ success := true, message := some "Embedding generado correctamente.",
                   data := some (ProbeData.embedD embeddingModel 1) }, []) ∧
    runGeminiTests.embedding envOk (modelCheckStub defaultModel) =
      Except.ok ({ success := false, message := some "model mismatch", data := none },
        []) :=
  ⟨rfl, rfl, rfl⟩

/-- C9 (amended): each of the six generation probes takes an optional model override,
defaulting to `gemini-2.5-flash` when omitted, and the override is the model identifier
of the outbound request (observable through a request-echoing stub); the embedding probe
takes no override and always sends the fixed model `"text-embedding-004"`.  All probes
return the uniform `TestResult`. -/
theorem C9_amended :
    (∀ m, (connectRequest m).model = m) ∧
    (∀ m, (generateTextRequest m).model = m) ∧
    (∀ m, (streamRequest m).model = m) ∧
    (∀ m, (countTokensRequest m).model = m) ∧
    (∀ m, (visionRequest m).model = m) ∧
    (∀ m, (sysRequest m).model = m) ∧
    (∀ env stub, runGeminiTests.connect none env stub =
      runGeminiTests.connect (some defaultModel) env stub) ∧
    (∀ env stub, runGeminiTests.generateText none env stub =
      runGeminiTests.generateText (some defaultModel) env stub) ∧
    (∀ env stub, runGeminiTests.streamText none env stub =
      runGeminiTests.streamText (some defaultModel) env stub) ∧
    (∀ env stub, runGeminiTests.countTokens none env stub =
      runGeminiTests.countTokens (some defaultModel) env stub) ∧
    (∀ env stub, runGeminiTests.vision none env stub =
      runGeminiTests.vision (some defaultModel) env stub) ∧
    (∀ env stub, runGeminiTests.systemInstruction none env stub =
      runGeminiTests.systemInstruction (some defaultModel) env stub) ∧
    embedRequest.model = "text-embedding-004" ∧
    runGeminiTests.connect (some "my-model") envOk echoStub = Except.ok
      { success := true, message := some (connectSuccessMsg "my-model"),
        data := some (ProbeData.connectD (some "my-model")) } ∧
    runGeminiTests.generateText (some "my-model") envOk echoStub = Except.ok
      { success := true, message := some "Generación de texto correcta.",
        data := some (ProbeData.generateD "my-model" generateTextPrompt
          (some "my-model")) } ∧
    runGeminiTests.streamText (some "my-model") envOk echoStub = Except.ok
      { success := true, message := some (streamSuccessMsg 1),
        data := some (ProbeData.streamD "my-model" "my-model" 1) } ∧
    runGeminiTests.countTokens (some "my-model") envOk echoStub = Except.ok
      { success := true, message := some "Conteo de tokens exitoso.",
        data := some (ProbeData.tokensD "my-model" countTokensPrompt (some 8)) } ∧
    runGeminiTests.vision (some "my-model") envOk echoStub = Except.ok
      { success := true, message := some "Análisis de visión completado.",
        data := some (ProbeData.visionD "my-model" (some "my-model")) } ∧
    runGeminiTests.systemInstruction (some "my-model") envOk echoStub = Except.ok
      { success := false,
        message := some "El modelo no siguió la instrucción del sistema estrictamente.",
        data := some (ProbeData.sysD "my-model" sysInstructionText sysPromptText
          "my-model") } :=
  ⟨fun _ => rfl, fun _ => rfl, fun _ => rfl, fun _ => rfl, fun _ => rfl, fun _ => rfl,
   fun _ _ => rfl, fun _ _ => rfl, fun _ _ => rfl, fun _ _ => rfl, fun _ _ => rfl,
   fun _ _ => rfl, rfl, rfl, rfl, rfl, rfl, rfl, rfl⟩

/-- C10: a failure produced by the catch boundary of any probe carries no `data` field;
the one exception is the system-instruction probe's content-validation failure, which
returns `success := false` together with the full data payload (model, instruction,
prompt, output).  For the system-instruction probe, a thrown call still yields a
data-free failure. -/
theorem C10_failure_data_shape (modelId? : Option String) (env : ProcessEnv)
    (stub : ClientStub) :
    (∀ r, runGeminiTests.connect modelId? env stub = Except.ok r → r.success = false →
      r.data = none) ∧
    (∀ r, runGeminiTests.generateText modelId? env stub = Except.ok r →
      r.success = false → r.data = none) ∧
    (∀ r, runGeminiTests.streamText modelId? env stub = Except.ok r →
      r.success = false → r.data = none) ∧
    (∀ r, runGeminiTests.countTokens modelId? env stub = Except.ok r →
      r.success = false → r.data = none) ∧
    (∀ r, runGeminiTests.vision modelId? env stub = Except.ok r → r.success = false →
      r.data = none) ∧
    (∀ r warns, runGeminiTests.embedding env stub = Except.ok (r, warns) →
      r.success = false → r.data = none) ∧
    (∀ e, strTruthy env.API_KEY = true → stub.ctorError = none →
      stub.generateContent (sysRequest (modelId?.getD defaultModel)) = Except.error e →
      runGeminiTests.systemInstruction modelId? env stub = Except.ok
        { success := false, message := e.message, data := none }) ∧
    (∀ response, strTruthy env.API_KEY = true → stub.ctorError = none →
      stub.generateContent (sysRequest (modelId?.getD defaultModel)) =
        Except.ok response →
      strIncludes (strToLower (jsOr response.text "")) "miau" = false →
      runGeminiTests.systemInstruction modelId? env stub = Except.ok
        { success := false,
          message := some "El modelo no siguió la instrucción del sistema estrictamente.",
          data := some (ProbeData.sysD (modelId?.getD defaultModel) sysInstructionText
            sysPromptText (jsOr response.text "")) }) := by
  refine ⟨?_, ?_, ?_, ?_, ?_, ?_, ?_, ?_⟩
  · intro r h hs
    unfold runGeminiTests.connect at h
    cases hb : runGeminiTests.connectTry (modelId?.getD defaultModel) env stub with
    | ok r2 =>
      simp only [hb, probeCatch] at h
      injection h with h2
      subst h2
      have hi := connectTry_ok_inv _ env stub r2 hb
      rw [hi.1] at hs
      exact (Bool.noConfusion hs)
    | error e =>
      simp only [hb, probeCatch] at h
      injection h with h2
      subst h2
      rfl
  · intro r h hs
    unfold runGeminiTests.generateText at h
    cases hb : runGeminiTests.generateTextTry (modelId?.getD defaultModel) env stub with
    | ok r2 =>
      simp only [hb, probeCatch] at h
      injection h with h2
      subst h2
      have hi := generateTextTry_ok_inv _ env stub r2 hb
      rw [hi.1] at hs
      exact (Bool.noConfusion hs)
    | error e =>
      simp only [hb, probeCatch] at h
      injection h with h2
      subst h2
      rfl
  · intro r h hs
    unfold runGeminiTests.streamText at h
    cases hb : runGeminiTests.streamTextTry (modelId?.getD defaultModel) env stub with
    | ok r2 =>
      simp only [hb, probeCatch] at h
      injection h with h2
      subst h2
      have hi := streamTextTry_ok_inv _ env stub r2 hb
      rw [hi.1] at hs
      exact (Bool.noConfusion hs)
    | error e =>
      simp only [hb, probeCatch] at h
      injection h with h2
      subst h2
      rfl
  · intro r h hs
    unfold runGeminiTests.countTokens at h
    cases hb : runGeminiTests.countTokensTry (modelId?.getD defaultModel) env stub with
    | ok r2 =>
      simp only [hb, probeCatch] at h
      injection h with h2
      subst h2
      have hi := countTokensTry_ok_inv _ env stub r2 hb
      rw [hi.1] at hs
      exact (Bool.noConfusion hs)
    | error e =>
      simp only [hb, probeCatch] at h
      injection h with h2
      subst h2
      rfl
  · intro r h hs
    unfold runGeminiTests.vision at h
    cases hb : runGeminiTests.visionTry (modelId?.getD defaultModel) env stub with
    | ok r2 =>
      simp only [hb, probeCatch] at h
      injection h with h2
      subst h2
      have hi := visionTry_ok_inv _ env stub r2 hb
      rw [hi.1] at hs
      exact (Bool.noConfusion hs)
    | error e =>
      simp only [hb, probeCatch] at h
      injection h with h2
      subst h2
      rfl
  · intro r warns h hs
    unfold runGeminiTests.embedding at h
    rcases hbt : runGeminiTests.embeddingTry env stub with ⟨b, warns2⟩
    cases b with
    | ok r2 =>
      simp only [hbt] at h
      injection h with h1
      injection h1 with h2 h3
      subst h2
      have hi := embeddingTry_ok_inv env stub r2 warns2 hbt
      rw [hi.1] at hs
      exact (Bool.noConfusion hs)
    | error e =>
      simp only [hbt] at h
      injection h with h1
      injection h1 with h2 h3
      subst h2
      rfl
  · intro e hkey hctor hcall
    simp [runGeminiTests.systemInstruction, runGeminiTests.systemInstructionTry,
      getAIClient_ok env stub hkey hctor, hcall, probeCatch]
  · intro response hkey hctor hcall hmiau
    simp [runGeminiTests.systemInstruction, runGeminiTests.systemInstructionTry,
      getAIClient_ok env stub hkey hctor, hcall, probeCatch, hmiau]

/-- Witness for C10: the data-free catch failure of connect on a throwing stub, and the
data-carrying validation failure of the system-instruction probe on the `"Hello"` stub. -/
theorem C10_failure_data_shape_witness :
    ({ success := false, message := some "Error de conexión", data := none } :
      TestResult).data = none ∧
    runGeminiTests.systemInstruction none envOk stubHello = Except.ok
      { success := false,
        message := some "El modelo no siguió la instrucción del sistema estrictamente.",
        data := some (ProbeData.sysD defaultModel sysInstructionText sysPromptText
          "Hello") } :=
  ⟨(C10_failure_data_shape none envOk stubThrowNoMsg).1 _ rfl rfl,
   (C10_failure_data_shape none envOk stubHello).2.2.2.2.2.2.2 { text := some "Hello" }
     rfl rfl rfl rfl⟩
